import Mathlib

/-!
# Verification of the DFTB relaxation controller

Shallow embedding of `pychemia/code/dftb/_relaxator.py`: the `Relaxator`
class, its `quality` scorer and the body of the `run()` polling loop.

The controller coordinates an external subprocess through the filesystem.
We model one polling cycle of the `while True` loop as a pure step over
the controller state, parameterised by a `LoopEvent` describing what the
external world returned on that cycle (process still alive, process
exited with the detailed-results artifact missing, or process exited with
parsed artifacts).  The structure payload, the symmetrizer and the output
readers are external collaborators: the structure is opaque (only stored,
copied, replaced or symmetrized wholesale) and the parsed artifacts are
passed in as data.
-/

namespace PyChemia
namespace DFTB

/-- Atomic structure payload.  The relaxation controller never inspects
it field by field: it only stores, copies, replaces and symmetrizes it
wholesale, so an opaque identifier suffices for the embedding. -/
structure Structure where
  id : Nat
deriving DecidableEq, Repr

/-- Python's `structure.copy()`: yields a value equal to the original. -/
def Structure.copy (s : Structure) : Structure := s

/-- Parsed result of `read_detailed_out`: optional flattened force
tensor, optional flattened stress tensor, optional total energy. -/
structure DetailedOut where
  forces : Option (List ℚ)
  stress : Option (List ℚ)
  total_energy : Option ℚ
deriving DecidableEq, Repr

/-- The `geom_optimization` dictionary parsed from `dftb_stdout.log` by
`read_dftb_stdout`: ordered histories of recorded max-force and
max-lattice-force values.  An empty list models the key being absent
from the dictionary (the Python code only indexes `[-1]` / `[0]` after
an `in` membership test). -/
structure GeomOptimization where
  max_force : List ℚ
  max_lattice_force : List ℚ
deriving DecidableEq, Repr

/-- The `stats` dictionary parsed from `dftb_stdout.log`. -/
structure Stats where
  ion_convergence : Bool
deriving DecidableEq, Repr

/-- The driver-option entries of the engine configuration that
`Relaxator.run` reads or writes.  `movedAtoms = none` models the
`MovedAtoms` key not yet being present in the dictionary. -/
structure Driver where
  latticeOpt : Bool
  maxForceComponent : ℚ
  convergentForcesOnly : Bool
  maxSteps : Nat
  movedAtoms : Option String
deriving DecidableEq, Repr

/-- The `Relaxator` object attributes set in `__init__` (workdir,
initial_structure, structure, slater_path, target_forces, waiting).
The Python attribute `structure` is a Lean keyword, hence `structure_`. -/
structure Relaxator where
  workdir : String
  initial_structure : Structure
  structure_ : Structure
  slater_path : String
  target_forces : ℚ
  waiting : Bool
deriving DecidableEq, Repr

/-- `Relaxator.__init__`: the incoming structure is symmetrized, the
symmetrized value is stored as `initial_structure`, and `structure`
is set to a copy of it.  The symmetrizer is an external collaborator
passed as a function parameter. -/
def Relaxator.init (symm : Structure → Structure) (workdir : String)
    (s : Structure) (slater_path : String) (target_forces : ℚ)
    (waiting : Bool) : Relaxator :=
  { workdir := workdir
    initial_structure := symm s
    structure_ := (symm s).copy
    slater_path := slater_path
    target_forces := target_forces
    waiting := waiting }

/-- `np.max(np.abs(v.flatten()))` over a flattened tensor, as used for
the `good_forces` / `good_stress` classification. -/
def maxAbs (l : List ℚ) : ℚ := l.foldr (fun x m => max |x| m) 0

/-- The `good_forces` classification in `Relaxator.run`: true iff the
force tensor is present and its maximum absolute component is strictly
below `10 * target_forces`. -/
def good_forces (target_forces : ℚ) (forces : Option (List ℚ)) : Bool :=
  match forces with
  | some f => decide (maxAbs f < 10 * target_forces)
  | none => false

/-- The `good_stress` classification in `Relaxator.run`: same rule as
`good_forces`, applied to the stress tensor. -/
def good_stress (target_forces : ℚ) (stress : Option (List ℚ)) : Bool :=
  match stress with
  | some st => decide (maxAbs st < 10 * target_forces)
  | none => false

/-- The `ConvergentForcesOnly` update at the top of the evaluation step:
`if forces is None or stress is None: ... = False else: ... = True`. -/
def nextConvergentForcesOnly (forces stress : Option (List ℚ)) : Bool :=
  if forces = none ∨ stress = none then false else true

/-- `Relaxator.quality`: the convergence scorer.  Mirrors the Python
body statement by statement; the branches that add `score += 0` in the
source are kept (they contribute nothing but are part of the code). -/
def quality (target_forces : ℚ) (go : GeomOptimization) (stats : Stats)
    (score : Int) : Int :=
  -- score += 1  (increase the score on each iteration)
  let score := score + 1
  -- if stats['ion_convergence']: score += 0
  let score := if stats.ion_convergence then score + 0 else score
  -- if 'max_force' in geom_optimization: ... else: return score
  match go.max_force.getLast? with
  | none => score
  | some max_force =>
    let max_lattice_force := go.max_lattice_force.getLast?
    -- if max_lattice_force is not None and both below target: score += 100
    let score :=
      match max_lattice_force with
      | some mlf =>
          if max_force < target_forces ∧ mlf < target_forces then score + 100
          else score
      | none => score
    -- target forces not achieved: score += 0
    let score := if target_forces < max_force then score + 0 else score
    -- forces are decreasing: score += 0
    let score :=
      match go.max_force.head? with
      | some first => if max_force < first then score + 0 else score
      | none => score
    -- only for lattice optimization: two more score += 0 branches
    let score :=
      match max_lattice_force, go.max_lattice_force.head? with
      | some mlf, some first =>
          let score := if target_forces < mlf then score + 0 else score
          if mlf < first then score + 0 else score
      | _, _ => score
    score

/-- Driver options in force before the first submission
(`basic_input()` followed by the explicit assignments in `run`):
LatticeOpt false, MaxForceComponent `0.9 * target_forces`,
ConvergentForcesOnly true, MaxSteps 50. -/
def initialDriver (target_forces : ℚ) : Driver :=
  { latticeOpt := false
    maxForceComponent := 9 / 10 * target_forces
    convergentForcesOnly := true
    maxSteps := 50
    movedAtoms := none }

/-- Local state of the `run()` loop: the iteration counter `irun`, the
accumulated `score`, and the live driver configuration. -/
structure LoopState where
  irun : Nat
  score : Int
  driver : Driver
deriving DecidableEq, Repr

/-- Loop-local state on entry to the `while True` loop:
`irun = 0`, `score = 0`, driver as configured before the first run. -/
def initialLoopState (target_forces : ℚ) : LoopState :=
  { irun := 0, score := 0, driver := initialDriver target_forces }

/-- What the external world returned on one polling cycle:
the process is still alive (observability read only), the process
exited but `detailed.out` is missing, or the process exited and the
artifacts were parsed.  `geo_end` is the structure read from
`geo_end.gen`; `final_geo` is `some g` when `geo_end.gen` exists for
`get_final_geometry` and `none` when it does not. -/
inductive LoopEvent where
  | stillRunning
  | exitedMissingArtifact
  | exited (res : DetailedOut) (go : GeomOptimization) (stats : Stats)
      (geo_end : Structure) (final_geo : Option Structure)
deriving DecidableEq, Repr

/-- The driver mutation of the three matched decision branches taken
when the score is below 20.  The fourth case (neither forces nor
stress good) matches no branch: the driver carries over unchanged. -/
def relaxBranch (gf gs : Bool) (d : Driver) : Driver :=
  if gf && gs then
    -- Convergence: Internals + Cell
    { d with movedAtoms := some "1:-1", latticeOpt := true }
  else if !gf && gs then
    -- Convergence: Internals
    { d with latticeOpt := false, movedAtoms := some "1:-1" }
  else if gf && !gs then
    -- Convergence: Internals + Cell
    { d with latticeOpt := true, movedAtoms := some "1:-1" }
  else d

/-- `Relaxator.get_final_geometry`: the geometry read from
`geo_end.gen` when that file exists, else the in-memory structure. -/
def get_final_geometry (current : Structure) (final_geo : Option Structure) :
    Structure :=
  match final_geo with
  | some g => g
  | none => current

/-- Driver dictionary after `dftb.driver = {}` on the finalization
path (a bare static run: every driver option cleared). -/
def clearedDriver : Driver :=
  { latticeOpt := false
    maxForceComponent := 0
    convergentForcesOnly := false
    maxSteps := 0
    movedAtoms := none }

/-- One cycle of the `while True` loop in `Relaxator.run`, given the
event observed on that cycle.  Returns the updated `Relaxator`, the
updated loop-local state, and whether the loop continues (`false`
models reaching a `break`).  The finalization branch (score ≥ 20) is
folded to its effect on the controller state: the final geometry is
adopted and symmetrized, the driver dictionary is cleared, the static
run (and its best-effort fallback) completes, and the loop breaks. -/
def loopBody (symm : Structure → Structure) (r : Relaxator) (st : LoopState)
    (e : LoopEvent) : Relaxator × LoopState × Bool :=
  match e with
  | .stillRunning =>
      -- poll branch: opportunistic read of the progress log only
      (r, st, true)
  | .exitedMissingArtifact =>
      -- log.error('Could not find ' + filename); break
      (r, st, false)
  | .exited res go stats geo_end final_geo =>
      let driver := { st.driver with
        convergentForcesOnly := nextConvergentForcesOnly res.forces res.stress }
      let gf := good_forces r.target_forces res.forces
      let gs := good_stress r.target_forces res.stress
      let score := quality r.target_forces go stats st.score
      if score < 20 then
        -- decision branches, then unconditionally: read geo_end.gen,
        -- symmetrize, adopt, roll_outputs(irun), irun += 1, run()
        let driver := relaxBranch gf gs driver
        ({ r with structure_ := symm geo_end },
         { irun := st.irun + 1, score := score, driver := driver },
         true)
      else
        -- final static calculation, then break
        ({ r with structure_ := symm (get_final_geometry r.structure_ final_geo) },
         { irun := st.irun, score := score, driver := clearedDriver },
         false)

/-- The `while True` loop of `Relaxator.run`, driven by the list of
events observed on successive polling cycles; stops at the first
`break` or when the event list is exhausted. -/
def runLoop (symm : Structure → Structure) (r : Relaxator) (st : LoopState) :
    List LoopEvent → Relaxator × LoopState
  | [] => (r, st)
  | e :: es =>
    match loopBody symm r st e with
    | (r1, st1, true) => runLoop symm r1 st1 es
    | (r1, st1, false) => (r1, st1)

/-- Accumulated score after folding the scorer over a sequence of run
histories, starting from 0 (as `run()` does). -/
def scoreAfter (target_forces : ℚ) (runs : List (GeomOptimization × Stats)) :
    Int :=
  runs.foldl (fun sc p => quality target_forces p.1 p.2 sc) 0

/-!
## Theorems
-/

/-- Claim C1, counterexample: with the force tensor present and the
stress tensor absent (at least one of the two present), the code sets
`ConvergentForcesOnly` to false, contradicting the claim that the
option is kept true whenever at least one tensor is present (the
source tests `forces is None or stress is None`, not `and`). -/
theorem convergentForcesOnly_false_with_stress_absent :
    nextConvergentForcesOnly (some [0]) none = false ∧
    (some [(0 : ℚ)]) ≠ (none : Option (List ℚ)) := by decide

/-- Claim C1, amended: in the EVALUATING step the controller sets
`ConvergentForcesOnly` to true for the next run if and only if BOTH the
forces tensor and the stress tensor are present in the parsed detailed
results; it sets the option false whenever at least one of the two is
absent. -/
theorem convergentForcesOnly_true_iff_both_present
    (forces stress : Option (List ℚ)) :
    nextConvergentForcesOnly forces stress = true ↔
      (forces ≠ none ∧ stress ≠ none) := by
  cases forces <;> cases stress <;> simp [nextConvergentForcesOnly]

/-- Claim C2: at every evaluation point of the controller loop, the
loop breaks into the final static calculation (FINALIZING) if and only
if the quality score computed for that evaluation is at least 20, and
it continues with a relaxation resubmission if and only if that score
is strictly below 20. -/
theorem finalize_iff_score_ge_twenty (symm : Structure → Structure)
    (r : Relaxator) (st : LoopState) (res : DetailedOut)
    (go : GeomOptimization) (stats : Stats) (geo_end : Structure)
    (final_geo : Option Structure) :
    ((loopBody symm r st (.exited res go stats geo_end final_geo)).2.2 = false ↔
      20 ≤ quality r.target_forces go stats st.score) ∧
    ((loopBody symm r st (.exited res go stats geo_end final_geo)).2.2 = true ↔
      quality r.target_forces go stats st.score < 20) := by
  unfold loopBody
  dsimp only
  split <;> rename_i h <;> simp <;> omega

/-- Claim C3: for every previous score `s` and every progress history
whose max-force and max-lattice-force sequences are non-empty, the
scorer returns `s + 101` when the final recorded max force and max
lattice force are both strictly below the target force threshold, and
`s + 1` (no bonus) otherwise. -/
theorem quality_bonus_iff_both_final_below_target (target_forces : ℚ)
    (go : GeomOptimization) (stats : Stats) (s : Int) (mf mlf : ℚ)
    (hf : go.max_force.getLast? = some mf)
    (hl : go.max_lattice_force.getLast? = some mlf) :
    quality target_forces go stats s =
      if mf < target_forces ∧ mlf < target_forces then s + 101 else s + 1 := by
  unfold quality
  rw [hf, hl]
  dsimp only
  by_cases hb : mf < target_forces ∧ mlf < target_forces <;>
    simp only [hb, if_true, if_false] <;> (repeat' split) <;> omega

/-- Claim C3, witness: a history ending at 1/2000 on both sequences
with target 1/1000 earns the bonus, evaluating the theorem at a
concrete input. -/
theorem quality_bonus_iff_both_final_below_target_witness :
    quality (1/1000) ⟨[1/2000], [1/2000]⟩ ⟨false⟩ 0 =
      if (1 : ℚ)/2000 < 1/1000 ∧ (1 : ℚ)/2000 < 1/1000 then (0 : Int) + 101
      else 0 + 1 :=
  quality_bonus_iff_both_final_below_target (1/1000) ⟨[1/2000], [1/2000]⟩
    ⟨false⟩ 0 (1/2000) (1/2000) rfl rfl

/-- Claim C4, counterexample: on a history with no max-force entry and
incoming score 0, the scorer returns 1, not the incoming score 0: the
`score += 1` liveness increment precedes the early exit. -/
theorem quality_empty_history_still_increments :
    quality 1 (⟨[], []⟩ : GeomOptimization) ⟨false⟩ 0 = 1 ∧ (1 : Int) ≠ 0 := by
  decide

/-- Claim C4, amended: for every previous score `s` and every progress
history containing no max-force entry, the scorer returns `s + 1`: the
early exit happens after the unconditional per-run `+1` increment, so
the incoming score is not returned unchanged. -/
theorem quality_no_max_force_adds_one (target_forces : ℚ)
    (go : GeomOptimization) (stats : Stats) (s : Int)
    (h : go.max_force = []) :
    quality target_forces go stats s = s + 1 := by
  unfold quality
  rw [h]
  dsimp only [List.getLast?]
  split <;> omega

/-- Claim C4, witness: the amended theorem evaluated on a concrete
history with no max-force entry. -/
theorem quality_no_max_force_adds_one_witness :
    quality 1 ⟨[], [2]⟩ ⟨true⟩ 5 = 5 + 1 :=
  quality_no_max_force_adds_one 1 ⟨[], [2]⟩ ⟨true⟩ 5 rfl

/-- Claim C5, counterexample: with forces and stress both absent
(`good_forces = good_stress = false`, the unmatched fourth case) and a
score below 20, the loop body still resubmits: it continues the loop,
increments the iteration counter and adopts the symmetrized engine
geometry — contradicting the claim that this sequence is performed
only when one of the three matched decision branches applies. -/
theorem unmatched_case_still_resubmits :
    good_forces 1 none = false ∧ good_stress 1 none = false ∧
    ((loopBody Structure.copy (Relaxator.init Structure.copy "w" ⟨3⟩ "sk" 1 false)
        (initialLoopState 1)
        (.exited ⟨none, none, none⟩ ⟨[], []⟩ ⟨false⟩ ⟨7⟩ none)).2.2 = true) ∧
    ((loopBody Structure.copy (Relaxator.init Structure.copy "w" ⟨3⟩ "sk" 1 false)
        (initialLoopState 1)
        (.exited ⟨none, none, none⟩ ⟨[], []⟩ ⟨false⟩ ⟨7⟩ none)).2.1.irun = 1) ∧
    ((loopBody Structure.copy (Relaxator.init Structure.copy "w" ⟨3⟩ "sk" 1 false)
        (initialLoopState 1)
        (.exited ⟨none, none, none⟩ ⟨[], []⟩ ⟨false⟩ ⟨7⟩ none)).1.structure_ = ⟨7⟩) := by
  refine ⟨rfl, rfl, ?_, ?_, ?_⟩ <;> decide

/-- Claim C5, amended: whenever the quality score is below 20, the
resubmission sequence (adopt the symmetrized engine geometry, archive
under the current iteration index, increment the iteration counter,
resubmit and continue the loop) is performed unconditionally, in all
four good_forces/good_stress cases; only the `LatticeOpt`/`MovedAtoms`
driver mutations are restricted to the three matched branches, and in
the fourth case the driver carries over unchanged apart from the
`ConvergentForcesOnly` update. -/
theorem low_score_resubmission_unconditional (symm : Structure → Structure)
    (r : Relaxator) (st : LoopState) (res : DetailedOut)
    (go : GeomOptimization) (stats : Stats) (geo_end : Structure)
    (final_geo : Option Structure)
    (h : quality r.target_forces go stats st.score < 20) :
    ((loopBody symm r st (.exited res go stats geo_end final_geo)).2.2 = true) ∧
    ((loopBody symm r st (.exited res go stats geo_end final_geo)).2.1.irun
      = st.irun + 1) ∧
    ((loopBody symm r st (.exited res go stats geo_end final_geo)).1.structure_
      = symm geo_end) ∧
    (good_forces r.target_forces res.forces = false →
     good_stress r.target_forces res.stress = false →
      (loopBody symm r st (.exited res go stats geo_end final_geo)).2.1.driver =
        { st.driver with
            convergentForcesOnly :=
              nextConvergentForcesOnly res.forces res.stress }) := by
  unfold loopBody
  dsimp only
  rw [if_pos h]
  refine ⟨rfl, rfl, rfl, ?_⟩
  intro hf hs
  simp [relaxBranch, hf, hs]

/-- Claim C5, witness: the amended theorem evaluated at a concrete
fourth-case input (forces and stress absent, score 0). -/
theorem low_score_resubmission_unconditional_witness :
    ((loopBody Structure.copy (Relaxator.init Structure.copy "w" ⟨3⟩ "sk" 1 false)
        (initialLoopState 1)
        (.exited ⟨none, none, none⟩ ⟨[], []⟩ ⟨false⟩ ⟨7⟩ none)).2.2 = true) ∧
    ((loopBody Structure.copy (Relaxator.init Structure.copy "w" ⟨3⟩ "sk" 1 false)
        (initialLoopState 1)
        (.exited ⟨none, none, none⟩ ⟨[], []⟩ ⟨false⟩ ⟨7⟩ none)).2.1.irun
      = (initialLoopState 1).irun + 1) ∧
    ((loopBody Structure.copy (Relaxator.init Structure.copy "w" ⟨3⟩ "sk" 1 false)
        (initialLoopState 1)
        (.exited ⟨none, none, none⟩ ⟨[], []⟩ ⟨false⟩ ⟨7⟩ none)).1.structure_
      = Structure.copy ⟨7⟩) ∧
    (good_forces (Relaxator.init Structure.copy "w" ⟨3⟩ "sk" 1 false).target_forces
        none = false →
     good_stress (Relaxator.init Structure.copy "w" ⟨3⟩ "sk" 1 false).target_forces
        none = false →
      (loopBody Structure.copy (Relaxator.init Structure.copy "w" ⟨3⟩ "sk" 1 false)
        (initialLoopState 1)
        (.exited ⟨none, none, none⟩ ⟨[], []⟩ ⟨false⟩ ⟨7⟩ none)).2.1.driver =
        { (initialLoopState 1).driver with
            convergentForcesOnly := nextConvergentForcesOnly none none }) :=
  low_score_resubmission_unconditional Structure.copy
    (Relaxator.init Structure.copy "w" ⟨3⟩ "sk" 1 false) (initialLoopState 1)
    ⟨none, none, none⟩ ⟨[], []⟩ ⟨false⟩ ⟨7⟩ none (by decide)

/-- Claim C6: for every previous score `s` and every progress history,
the scorer's result is at least `s` (the accumulated score never
decreases), and in fact strictly exceeds `s` by at least 1 on every
completed run regardless of the run's outcome. -/
theorem quality_monotone_increment (target_forces : ℚ)
    (go : GeomOptimization) (stats : Stats) (s : Int) :
    s ≤ quality target_forces go stats s ∧
    s + 1 ≤ quality target_forces go stats s := by
  have h : s + 1 ≤ quality target_forces go stats s := by
    unfold quality
    dsimp only
    (repeat' split) <;> omega
  exact ⟨by omega, h⟩

/-- Claim C7, counterexample: with target 1e-3 (= 1/1000), incoming
score 0 and a first run ending with max force 5e-3 (= 1/200) and max
lattice force 5e-3, the scorer returns 1, not 101: the +100 bonus
compares against the target itself (1e-3), not against 10x the target,
and 5e-3 is not below 1e-3. -/
theorem scenario_a_returns_one :
    quality (1/1000) ⟨[1/200], [1/200]⟩ ⟨false⟩ 0 = 1 ∧ (1 : Int) ≠ 101 := by
  constructor
  · norm_num [quality]
  · decide

/-- Claim C7, amended: with target 1e-3 and initial score 0, a first
run whose history ends with max force 5e-3 and max lattice force 5e-3
makes the scorer return 1 — only the per-run +1 applies, because the
+100 bonus requires both final values strictly below the target
1e-3 itself (the 10x-target multiplier belongs to the good_forces /
good_stress classification, not to the scorer). -/
theorem scenario_a_no_bonus (stats : Stats) :
    quality (1/1000) ⟨[1/200], [1/200]⟩ stats 0 = 1 := by
  rcases stats with ⟨b⟩
  cases b <;> norm_num [quality]

/-- Claim C8: if the detailed-results artifact is absent once the
first run's process has exited (after any number of still-running
polling cycles), the loop terminates immediately — the remaining
events are never consumed — with the Relaxator object exactly as
`__init__` built it, and its current structure equal to its initial
structure. -/
theorem missing_artifact_terminates_unchanged (symm : Structure → Structure)
    (workdir : String) (s0 : Structure) (slater_path : String)
    (target_forces : ℚ) (waiting : Bool) (n : Nat) (rest : List LoopEvent) :
    (runLoop symm (Relaxator.init symm workdir s0 slater_path target_forces waiting)
        (initialLoopState target_forces)
        (List.replicate n .stillRunning ++ .exitedMissingArtifact :: rest)).1 =
      Relaxator.init symm workdir s0 slater_path target_forces waiting ∧
    (Relaxator.init symm workdir s0 slater_path target_forces waiting).structure_ =
      (Relaxator.init symm workdir s0 slater_path target_forces waiting).initial_structure := by
  refine ⟨?_, rfl⟩
  induction n with
  | zero => rfl
  | succ k ih =>
      rw [List.replicate_succ, List.cons_append]
      exact ih

/-- Claim C9: whenever the history has at least one max-force entry,
the scorer's increment over the previous score is exactly 1 or exactly
101 (every other branch adds zero); consequently, starting from 0, the
threshold of 20 is first reached either by a single run earning the
+100 bonus (score 101) or after exactly 20 bonus-free scored runs
(19 such runs leave the score at 19, 20 reach exactly 20). -/
theorem quality_increment_dichotomy :
    (∀ (target_forces : ℚ) (go : GeomOptimization) (stats : Stats) (s : Int),
        go.max_force ≠ [] →
        quality target_forces go stats s = s + 1 ∨
        quality target_forces go stats s = s + 101) ∧
    scoreAfter 1 (List.replicate 20 (⟨[2], []⟩, ⟨false⟩)) = 20 ∧
    scoreAfter 1 (List.replicate 19 (⟨[2], []⟩, ⟨false⟩)) = 19 ∧
    quality 1 ⟨[1/2], [1/2]⟩ ⟨false⟩ 0 = 101 := by
  refine ⟨?_, by decide, by decide, by norm_num [quality]⟩
  intro target_forces go stats s h
  unfold quality
  rcases hgl : go.max_force.getLast? with _ | mf
  · exact absurd (List.getLast?_eq_none_iff.mp hgl) h
  · dsimp only
    (repeat' split) <;> omega

/-- Claim C9, witness: the dichotomy evaluated at a concrete history
with one max-force entry. -/
theorem quality_increment_dichotomy_witness :
    quality 1 ⟨[2], []⟩ ⟨false⟩ 0 = 0 + 1 ∨
    quality 1 ⟨[2], []⟩ ⟨false⟩ 0 = 0 + 101 :=
  quality_increment_dichotomy.1 1 ⟨[2], []⟩ ⟨false⟩ 0 (by decide)

/-- Claim C10: the constructor stores the symmetrized form of the
incoming structure as the initial structure and a copy of it as the
current structure; and every cycle of the run loop (hence the whole
loop) leaves `workdir`, `initial_structure`, `slater_path`,
`target_forces` and `waiting` unchanged — only the current structure
is ever reassigned. -/
theorem relaxator_init_and_frame :
    (∀ (symm : Structure → Structure) (workdir : String) (s0 : Structure)
        (slater_path : String) (target_forces : ℚ) (waiting : Bool),
      (Relaxator.init symm workdir s0 slater_path target_forces waiting).initial_structure
          = symm s0 ∧
      (Relaxator.init symm workdir s0 slater_path target_forces waiting).structure_
          = (symm s0).copy) ∧
    (∀ (symm : Structure → Structure) (r : Relaxator) (st : LoopState) (e : LoopEvent),
      (loopBody symm r st e).1.workdir = r.workdir ∧
      (loopBody symm r st e).1.initial_structure = r.initial_structure ∧
      (loopBody symm r st e).1.slater_path = r.slater_path ∧
      (loopBody symm r st e).1.target_forces = r.target_forces ∧
      (loopBody symm r st e).1.waiting = r.waiting) ∧
    (∀ (symm : Structure → Structure) (r : Relaxator) (st : LoopState)
        (events : List LoopEvent),
      (runLoop symm r st events).1.workdir = r.workdir ∧
      (runLoop symm r st events).1.initial_structure = r.initial_structure ∧
      (runLoop symm r st events).1.slater_path = r.slater_path ∧
      (runLoop symm r st events).1.target_forces = r.target_forces ∧
      (runLoop symm r st events).1.waiting = r.waiting) := by
  have hbody : ∀ (symm : Structure → Structure) (r : Relaxator) (st : LoopState)
      (e : LoopEvent),
      (loopBody symm r st e).1.workdir = r.workdir ∧
      (loopBody symm r st e).1.initial_structure = r.initial_structure ∧
      (loopBody symm r st e).1.slater_path = r.slater_path ∧
      (loopBody symm r st e).1.target_forces = r.target_forces ∧
      (loopBody symm r st e).1.waiting = r.waiting := by
    intro symm r st e
    cases e with
    | stillRunning => exact ⟨rfl, rfl, rfl, rfl, rfl⟩
    | exitedMissingArtifact => exact ⟨rfl, rfl, rfl, rfl, rfl⟩
    | exited res go stats geo_end final_geo =>
        unfold loopBody
        dsimp only
        split <;> exact ⟨rfl, rfl, rfl, rfl, rfl⟩
  refine ⟨fun _ _ _ _ _ _ => ⟨rfl, rfl⟩, hbody, ?_⟩
  intro symm r st events
  induction events generalizing r st with
  | nil => exact ⟨rfl, rfl, rfl, rfl, rfl⟩
  | cons e es ih =>
      unfold runLoop
      rcases hb : loopBody symm r st e with ⟨r1, st1, c⟩
      have hframe := hbody symm r st e
      rw [hb] at hframe
      cases c
      · exact hframe
      · dsimp only
        obtain ⟨h1, h2, h3, h4, h5⟩ := ih r1 st1
        obtain ⟨g1, g2, g3, g4, g5⟩ := hframe
        exact ⟨h1.trans g1, h2.trans g2, h3.trans g3, h4.trans g4, h5.trans g5⟩

end DFTB
end PyChemia
